import Mathlib

/-!
Shallow embedding of `src/python/ray/util/client/server/dataservicer.py`
(the ray client data-plane servicer).

Modelling conventions:
* Timestamps (`time.time()`) and reconnect grace periods are `Nat` seconds;
  only their ordering and zero-test matter to the code.
* gRPC metadata is an association list of string pairs.
* Backend capability calls (`basic_service.Init`, `_get_object`,
  `_async_get_object`, `_put_object`, `release`, `PrepRuntimeEnv`,
  `release_all`) are external collaborators; they are modelled as a
  `Backend` structure of pure functions over `Nat` payload tokens, and every
  invocation is recorded in an event trace.
* Python exceptions are `Nat` error tokens; a loop iteration either returns
  `.ok` or `.raised`, mirroring normal flow vs. an uncaught exception.
* The request queue filled by `fill_queue` is modelled by the list of items
  the dispatch loop dequeues before the sentinel: either inbound
  `DataRequest`s or pre-built `DataResponse`s injected by async gets.
* `with self.clients_lock: ...` blocks are straight-line code; the trace
  records `lockAcquire`/`lockRelease` around them so lock-discipline claims
  are statable.
-/

/-- Key-lookup in an association list keyed by strings
(models Python `dict.get` / `in`). -/
def lookupKey {α : Type} : List (String × α) → String → Option α
  | [], _ => none
  | (k, v) :: rest, key => if k = key then some v else lookupKey rest key

/-- Key-update in an association list (models Python `d[k] = v`). -/
def insertKey {α : Type} : List (String × α) → String → α → List (String × α)
  | [], key, v => [(key, v)]
  | (k, v') :: rest, key, v =>
      if k = key then (k, v) :: rest else (k, v') :: insertKey rest key v

/-- Key-removal in an association list (models Python `del d[k]`,
a no-op when the key is absent). -/
def eraseKey {α : Type} : List (String × α) → String → List (String × α)
  | [], _ => []
  | (k, v) :: rest, key =>
      if k = key then rest else (k, v) :: eraseKey rest key

/-- Lookup in an association list keyed by request ids. -/
def lookupNat {α : Type} : List (Nat × α) → Nat → Option α
  | [], _ => none
  | (k, v) :: rest, key => if k = key then some v else lookupNat rest key

/-- Removal from an association list keyed by request ids (no-op if absent). -/
def eraseNat {α : Type} : List (Nat × α) → Nat → List (Nat × α)
  | [], _ => []
  | (k, v) :: rest, key =>
      if k = key then eraseNat rest key else (k, v) :: eraseNat rest key

/-- The discriminated `type` oneof of a `DataRequest` message.  Kind-specific
payloads are reduced to the data the servicer actually inspects; opaque
payload bytes are `Nat` tokens.  `unknownType` stands for any oneof arm the
dispatch loop does not recognize. -/
inductive ReqType : Type
  | init (reconnect_grace_period : Nat)
  | get (asynchronous : Bool) (payload : Nat)
  | put (payload : Nat)
  | release (ids : List Nat)
  | connection_info
  | prep_runtime_env (payload : Nat)
  | connection_cleanup
  | acknowledge (ack_req_id : Nat)
  | unknownType
deriving DecidableEq

/-- A `DataRequest` message: a request id plus the discriminated kind. -/
structure DataRequest : Type where
  req_id : Nat
  type : ReqType
deriving DecidableEq

/-- The payload of a `DataResponse` message, one arm per response kind;
opaque response bytes are `Nat` tokens. -/
inductive RespPayload : Type
  | init (token : Nat)
  | get (token : Nat)
  | put (token : Nat)
  | release (ok : List Bool)
  | connection_info (num_clients : Nat)
  | prep_runtime_env (token : Nat)
  | connection_cleanup
deriving DecidableEq

/-- A `DataResponse` message: the echoed request id plus a payload. -/
structure DataResponse : Type where
  req_id : Nat
  payload : RespPayload
deriving DecidableEq

/-- `_should_cache`: true unless the request kind is one of
`acknowledge`, `connection_cleanup`, `get`. -/
def _should_cache (req : DataRequest) : Bool :=
  match req.type with
  | .acknowledge _ => false
  | .connection_cleanup => false
  | .get _ _ => false
  | _ => true

/-- `_get_reconnecting_from_context`: reads the stringified boolean
`reconnecting` from the connection metadata; a missing or malformed value is
treated as `False`. -/
def _get_reconnecting_from_context (metadata : List (String × String)) : Bool :=
  match lookupKey metadata "reconnecting" with
  | some "True" => true
  | _ => false

/-- A Python exception raised inside the dispatch loop: either the explicit
`raise Exception("Unreachable code: ...")` on an unrecognized request kind,
or a re-raised failure recorded in the response cache (an opaque token). -/
inductive Err : Type
  | unreachableType
  | cacheFault (token : Nat)
deriving DecidableEq

/-- Modelled from the spec: `OrderedResponseCache` (from
`ray.util.client.common`, not part of the reproduced sources).  It maps
request ids to previously computed responses, first-write-wins, and can be
permanently invalidated by a recorded error. -/
structure OrderedResponseCache : Type where
  entries : List (Nat × DataResponse)
  invalid : Option Err
deriving DecidableEq

/-- The three possible outcomes of `check_cache`. -/
inductive CacheResult : Type
  | hit (resp : DataResponse)
  | failure (err : Err)
  | absent
deriving DecidableEq

/-- Modelled from the spec: `check_cache(req_id)` returns a previously cached
response if present, the recorded failure once the cache has been
invalidated, or "absent". -/
def check_cache (c : OrderedResponseCache) (req_id : Nat) : CacheResult :=
  match c.invalid with
  | some e => .failure e
  | none =>
      match lookupNat c.entries req_id with
      | some r => .hit r
      | none => .absent

/-- Modelled from the spec: `update_cache(req_id, resp)` stores the response
if nothing is stored yet for that id (first-write-wins). -/
def update_cache (c : OrderedResponseCache) (req_id : Nat)
    (resp : DataResponse) : OrderedResponseCache :=
  match lookupNat c.entries req_id with
  | some _ => c
  | none => { c with entries := (req_id, resp) :: c.entries }

/-- Modelled from the spec: `cleanup(req_id)` removes the entry for an
acknowledged request id; a no-op when absent. -/
def cache_cleanup (c : OrderedResponseCache) (req_id : Nat) :
    OrderedResponseCache :=
  { c with entries := eraseNat c.entries req_id }

/-- Modelled from the spec: `invalidate(err)` marks the cache permanently
broken, recording the triggering error.  (Whether the cache "refuses to
record" the error, the boolean the caller inspects, is left to an oracle at
the call site.) -/
def cache_invalidate (c : OrderedResponseCache) (err : Err) :
    OrderedResponseCache :=
  { c with invalid := some err }

/-- The gRPC status codes the servicer sets. -/
inductive StatusCode : Type
  | RESOURCE_EXHAUSTED
  | NOT_FOUND
  | FAILED_PRECONDITION
deriving DecidableEq

/-- The backend capability calls the servicer can make
(`self.basic_service.*` and the final `ray.shutdown`). -/
inductive BackendCall : Type
  | InitCall
  | GetObject
  | AsyncGetObject
  | PutObject
  | Release
  | PrepRuntimeEnv
  | ReleaseAll
deriving DecidableEq

/-- Observable events of one connection handler, in program order. -/
inductive Event : Type
  | backend (c : BackendCall)
  | emit (r : DataResponse)
  | cacheCheck (req_id : Nat)
  | cacheStore (req_id : Nat)
  | cacheCleanup (req_id : Nat)
  | lockAcquire
  | lockRelease
  | graceWait (delay : Nat)
  | rayShutdown
deriving DecidableEq

/-- The black-box request-execution service (`self.basic_service`):
pure response functions over payload tokens.  `_async_get_object` returns
`none` when the result is not ready yet (the response then arrives later on
the queue as a pre-built `DataResponse`). -/
structure Backend : Type where
  InitResp : Nat → Nat
  _get_object : Nat → Nat
  _async_get_object : Nat → Option Nat
  _put_object : Nat → Nat
  releaseOne : Nat → Bool
  PrepRuntimeEnvResp : Nat → Nat

/-- The registry state of the `DataServicer` instance, guarded by
`clients_lock`: the active-client counter and the three per-client-id maps. -/
structure ServerState : Type where
  num_clients : Nat
  client_last_seen : List (String × Nat)
  reconnect_grace_periods : List (String × Nat)
  response_caches : List (String × OrderedResponseCache)
deriving DecidableEq

namespace DataServicer

/-- Result of `DataServicer._init`: the updated registry state, whether the
connection was accepted, and the status code set on rejection. -/
structure InitResult : Type where
  state : ServerState
  accepted : Bool
  code : Option StatusCode
deriving DecidableEq

/-- `DataServicer._init`: under `clients_lock`, reject with
`RESOURCE_EXHAUSTED` when `num_clients` has reached the threshold
`int(CLIENT_SERVER_MAX_THREADS / 2)`; reject a reconnecting client with no
session entry with `NOT_FOUND`; otherwise admit, incrementing the counter
only for a brand-new client id, and set `client_last_seen[client_id]` to the
connection's start time. -/
def _init (srv : ServerState) (max_threads : Nat) (client_id : String)
    (reconnecting : Bool) (start_time : Nat) : InitResult :=
  let threshold := max_threads / 2
  if srv.num_clients ≥ threshold then
    ⟨srv, false, some .RESOURCE_EXHAUSTED⟩
  else if reconnecting ∧ lookupKey srv.client_last_seen client_id = none then
    ⟨srv, false, some .NOT_FOUND⟩
  else
    let srv' :=
      if (lookupKey srv.client_last_seen client_id).isSome then srv
      else { srv with num_clients := srv.num_clients + 1 }
    ⟨{ srv' with
        client_last_seen := insertKey srv'.client_last_seen client_id start_time },
      true, none⟩

/-- The per-connection mutable state of one `Datapath` invocation: the
registry (`self.*`, as far as this connection touches it), the local
`response_cache` alias, and the local flags `reconnect_enabled` and
`cleanup_requested`. -/
structure LoopState : Type where
  srv : ServerState
  response_cache : OrderedResponseCache
  reconnect_enabled : Bool
  cleanup_requested : Bool
deriving DecidableEq

/-- Outcome of one dispatch-loop iteration: normal continuation, or an
uncaught exception (Python `raise`) aborting the loop. -/
inductive StepResult : Type
  | ok (st : LoopState) (events : List Event)
  | raised (err : Err) (st : LoopState) (events : List Event)
deriving DecidableEq

/-- The caching-and-emission epilogue of one loop iteration
(`resp.req_id = req.req_id; if _should_cache(req) and reconnect_enabled:
update_cache; yield resp`).  `resp` already carries the echoed request id. -/
def finishResponse (st : LoopState) (req : DataRequest) (resp : DataResponse)
    (evts : List Event) : StepResult :=
  if _should_cache req && st.reconnect_enabled then
    .ok { st with
        response_cache := update_cache st.response_cache req.req_id resp }
      (evts ++ [.cacheStore req.req_id, .emit resp])
  else
    .ok st (evts ++ [.emit resp])

/-- The kind-dispatch switch of the loop (`if req_type == "init": ... else:
raise`), reached when the cache did not short-circuit the request. -/
def dispatchRequest (b : Backend) (client_id : String) (st : LoopState)
    (req : DataRequest) : StepResult :=
  match req.type with
  | .init g =>
      let resp : DataResponse := ⟨req.req_id, .init (b.InitResp g)⟩
      let st' : LoopState :=
        { st with
          srv := { st.srv with
            reconnect_grace_periods :=
              insertKey st.srv.reconnect_grace_periods client_id g },
          reconnect_enabled := if g = 0 then false else st.reconnect_enabled }
      finishResponse st' req resp [.backend .InitCall, .lockAcquire, .lockRelease]
  | .get asyn p =>
      if asyn then
        match b._async_get_object p with
        | none =>
            -- Result not ready: skip sending a response for this request.
            .ok st [.backend .AsyncGetObject]
        | some tok =>
            finishResponse st req ⟨req.req_id, .get tok⟩ [.backend .AsyncGetObject]
      else
        finishResponse st req ⟨req.req_id, .get (b._get_object p)⟩
          [.backend .GetObject]
  | .put p =>
      finishResponse st req ⟨req.req_id, .put (b._put_object p)⟩
        [.backend .PutObject]
  | .release ids =>
      finishResponse st req ⟨req.req_id, .release (ids.map b.releaseOne)⟩
        (ids.map fun _ => Event.backend .Release)
  | .connection_info =>
      finishResponse st req ⟨req.req_id, .connection_info st.srv.num_clients⟩
        [.lockAcquire, .lockRelease]
  | .prep_runtime_env p =>
      finishResponse st req ⟨req.req_id, .prep_runtime_env (b.PrepRuntimeEnvResp p)⟩
        [.lockAcquire, .backend .PrepRuntimeEnv, .lockRelease]
  | .connection_cleanup =>
      finishResponse { st with cleanup_requested := true } req
        ⟨req.req_id, .connection_cleanup⟩ []
  | .acknowledge ack =>
      .ok { st with response_cache := cache_cleanup st.response_cache ack }
        [.cacheCleanup ack]
  | .unknownType =>
      .raised .unreachableType st []

/-- One full dispatch-loop iteration on an inbound `DataRequest`: the cache
short-circuit (`if _should_cache(req) and reconnect_enabled: check_cache
...`) followed by `dispatchRequest` on a miss. -/
def processRequest (b : Backend) (client_id : String) (st : LoopState)
    (req : DataRequest) : StepResult :=
  if _should_cache req && st.reconnect_enabled then
    match check_cache st.response_cache req.req_id with
    | .failure e => .raised e st [.cacheCheck req.req_id]
    | .hit r => .ok st [.cacheCheck req.req_id, .emit r]
    | .absent =>
        match dispatchRequest b client_id st req with
        | .ok st' evts => .ok st' (.cacheCheck req.req_id :: evts)
        | .raised e st' evts => .raised e st' (.cacheCheck req.req_id :: evts)
  else
    dispatchRequest b client_id st req

/-- An item dequeued from the shared request queue before the sentinel:
either an inbound request, or a pre-built response injected by an
asynchronous get completion. -/
inductive QueueItem : Type
  | request (r : DataRequest)
  | response (r : DataResponse)
deriving DecidableEq

/-- Result of draining the queue: final per-connection state, the event
trace, and the uncaught exception if one aborted the loop. -/
structure RunResult : Type where
  st : LoopState
  events : List Event
  raised : Option Err
deriving DecidableEq

/-- The dispatch loop `for req in iter(request_queue.get, None)`: a
pre-built `DataResponse` is emitted immediately; a `DataRequest` goes
through `processRequest`; an uncaught exception aborts the loop. -/
def runLoop (b : Backend) (client_id : String) :
    LoopState → List QueueItem → RunResult
  | st, [] => ⟨st, [], none⟩
  | st, .response r :: rest =>
      let res := runLoop b client_id st rest
      ⟨res.st, .emit r :: res.events, res.raised⟩
  | st, .request req :: rest =>
      match processRequest b client_id st req with
      | .ok st' evts =>
          let res := runLoop b client_id st' rest
          ⟨res.st, evts ++ res.events, res.raised⟩
      | .raised e st' evts => ⟨st', evts, some e⟩

/-- The `except Exception as e:` handler of `Datapath` (lines 199-206):
classify recoverability via `_propagate_error_in_context` (external, the
`recoverable` oracle), invalidate the response cache with the fault
(`refuses` is the boolean `invalidate` returns), and when unrecoverable or
refused, set `FAILED_PRECONDITION` and force immediate cleanup. -/
def handleChannelError (recoverable refuses : Bool) (st : LoopState)
    (e : Err) : LoopState × Option StatusCode :=
  let st' : LoopState :=
    { st with response_cache := cache_invalidate st.response_cache e }
  if !recoverable || refuses then
    ({ st' with cleanup_requested := true }, some .FAILED_PRECONDITION)
  else
    (st', none)

/-- The `finally:` teardown block of `Datapath` (lines 207-254).  The
grace-period wait `self.stopped.wait(timeout=cleanup_delay)` (interruptible
by the global shutdown signal) is recorded as a `graceWait` event; then,
under `clients_lock`: no-op if the session is already gone, skip cleanup if
a reconnect refreshed `last_seen` past this connection's start time,
otherwise release the client's resources, delete its registry entries,
decrement the counter, and shut down ray when the counter reaches zero. -/
def Datapath_finally (srv : ServerState) (client_id : String)
    (start_time : Nat) (cleanup_requested : Bool) : ServerState × List Event :=
  let waitEvents : List Event :=
    match cleanup_requested, lookupKey srv.reconnect_grace_periods client_id with
    | false, some d => [.graceWait d]
    | _, _ => []
  match lookupKey srv.client_last_seen client_id with
  | none =>
      -- Some other connection has already cleaned up this client's session.
      (srv, waitEvents ++ [.lockAcquire, .lockRelease])
  | some last_seen =>
      if last_seen > start_time then
        -- Client reconnected during the grace period, skip cleanup.
        (srv, waitEvents ++ [.lockAcquire, .lockRelease])
      else
        let srv' : ServerState :=
          { num_clients := srv.num_clients - 1,
            client_last_seen := eraseKey srv.client_last_seen client_id,
            reconnect_grace_periods := eraseKey srv.reconnect_grace_periods client_id,
            response_caches := eraseKey srv.response_caches client_id }
        let shutdownEvents : List Event :=
          if srv'.num_clients = 0 then [.rayShutdown] else []
        (srv', waitEvents ++ [.lockAcquire, .backend .ReleaseAll]
          ++ shutdownEvents ++ [.lockRelease])

/-- Result of one whole `Datapath` invocation: final registry state, event
trace, and the gRPC status code set on the context (if any). -/
structure DatapathResult : Type where
  srv : ServerState
  events : List Event
  code : Option StatusCode
deriving DecidableEq

/-- The accepted-connection path of `Datapath` (the `try/except/finally`
block): run the dispatch loop over the queued items, on an uncaught
exception run the channel-error handler, write the aliased `response_cache`
back into the registry, and run the `finally:` teardown. -/
def Datapath_stream (b : Backend) (recoverableOf refusesOf : Err → Bool)
    (client_id : String) (start_time : Nat) (srv1 : ServerState)
    (cache0 : OrderedResponseCache) (items : List QueueItem)
    (code0 : Option StatusCode) : DatapathResult :=
  let run := runLoop b client_id ⟨srv1, cache0, true, false⟩ items
  match run.raised with
  | none =>
      -- `response_cache` aliases the dict entry; reflect its final
      -- contents into the registry before teardown reads it.
      let srv2 : ServerState :=
        { run.st.srv with
          response_caches :=
            insertKey run.st.srv.response_caches client_id
              run.st.response_cache }
      let t := Datapath_finally srv2 client_id start_time
        run.st.cleanup_requested
      ⟨t.1, run.events ++ t.2, code0⟩
  | some e =>
      let h := handleChannelError (recoverableOf e) (refusesOf e) run.st e
      let srv2 : ServerState :=
        { h.1.srv with
          response_caches :=
            insertKey h.1.srv.response_caches client_id
              h.1.response_cache }
      let t := Datapath_finally srv2 client_id start_time
        h.1.cleanup_requested
      ⟨t.1, run.events ++ t.2, h.2⟩

/-- One whole `Datapath` invocation for one accepted stream: metadata
check, `_init` admission, then `Datapath_stream`.  `recoverableOf` and
`refusesOf` are the oracles for `_propagate_error_in_context` and for the
boolean returned by `OrderedResponseCache.invalidate` (both external to the
reproduced sources). -/
def Datapath (b : Backend) (max_threads : Nat)
    (recoverableOf refusesOf : Err → Bool) (srv : ServerState)
    (metadata : List (String × String)) (start_time : Nat)
    (items : List QueueItem) : DatapathResult :=
  match lookupKey metadata "client_id" with
  | none => ⟨srv, [], none⟩
  | some client_id =>
      let ir := _init srv max_threads client_id
        (_get_reconnecting_from_context metadata) start_time
      -- `self.response_caches[client_id]` on a defaultdict: creates an
      -- empty cache when absent, even when the connection is rejected.
      let cache0 : OrderedResponseCache :=
        match lookupKey ir.state.response_caches client_id with
        | some c => c
        | none => ⟨[], none⟩
      let srv1 : ServerState :=
        { ir.state with
          response_caches := insertKey ir.state.response_caches client_id cache0 }
      if ir.accepted then
        Datapath_stream b recoverableOf refusesOf client_id start_time srv1
          cache0 items ir.code
      else
        ⟨srv1, [], ir.code⟩

end DataServicer

open DataServicer

/-! ## Concrete instances used by witnesses -/

/-- A concrete backend for witness instantiations. -/
def bEx : Backend :=
  ⟨fun n => n + 100, fun n => n + 200, fun _ => none, fun n => n + 300,
    fun _ => true, fun n => n + 400⟩

/-! ## Claims about `_init` admission -/

/-- C3: a new (non-reconnecting) client is admitted only when the
active-client count is below the threshold `CLIENT_SERVER_MAX_THREADS / 2`;
at or above the threshold the connection is rejected with
`RESOURCE_EXHAUSTED`, `_init` returns false, and the registry state is
unchanged (no session entry created, counter not incremented). -/
theorem init_admission_threshold (srv : ServerState) (max_threads : Nat)
    (cid : String) (t : Nat) :
    ((DataServicer._init srv max_threads cid false t).accepted = true →
      srv.num_clients < max_threads / 2) ∧
    (srv.num_clients ≥ max_threads / 2 →
      DataServicer._init srv max_threads cid false t =
        ⟨srv, false, some .RESOURCE_EXHAUSTED⟩) := by
  constructor
  · intro h
    by_contra hlt
    push_neg at hlt
    simp [DataServicer._init, hlt] at h
  · intro h
    simp [DataServicer._init, h]

/-- Witness for C3: with 4 active clients and a budget of 8 worker threads
(threshold 4), a fresh client is rejected with `RESOURCE_EXHAUSTED` and the
state is untouched. -/
theorem init_admission_threshold_witness :
    DataServicer._init ⟨4, [], [], []⟩ 8 "c1" false 7 =
      ⟨⟨4, [], [], []⟩, false, some .RESOURCE_EXHAUSTED⟩ :=
  (init_admission_threshold ⟨4, [], [], []⟩ 8 "c1" 7).2 (by decide)

/-- C9: the threshold check comes first in `_init` and rejects whenever the
count is at least the threshold, regardless of the reconnecting flag and of
an existing session entry; the `NOT_FOUND` and last-seen-refresh branches
are never reached in that case. -/
theorem init_threshold_precedes_reconnecting (srv : ServerState)
    (max_threads : Nat) (cid : String) (rec : Bool) (t : Nat)
    (h : srv.num_clients ≥ max_threads / 2) :
    DataServicer._init srv max_threads cid rec t =
      ⟨srv, false, some .RESOURCE_EXHAUSTED⟩ := by
  simp [DataServicer._init, h]

/-- Witness for C9: a reconnecting client whose session entry still exists
is rejected with `RESOURCE_EXHAUSTED` when the count equals the threshold. -/
theorem init_threshold_precedes_reconnecting_witness :
    DataServicer._init ⟨2, [("c1", 3)], [], []⟩ 4 "c1" true 9 =
      ⟨⟨2, [("c1", 3)], [], []⟩, false, some .RESOURCE_EXHAUSTED⟩ :=
  init_threshold_precedes_reconnecting ⟨2, [("c1", 3)], [], []⟩ 4 "c1" true 9
    (by decide)

/-- Counterexample to C4 as stated: a reconnecting client whose session
entry exists (client "c1", last seen 3) is nevertheless rejected — with
`RESOURCE_EXHAUSTED`, not accepted — because the active count (2) has
reached the threshold (4 / 2); so "if a session entry exists, `_init`
refreshes ... and returns true" does not hold unconditionally. -/
theorem init_reconnecting_counterexample :
    (DataServicer._init ⟨2, [("c1", 3)], [("c1", 30)], []⟩ 4 "c1" true 9).accepted
        = false ∧
    (DataServicer._init ⟨2, [("c1", 3)], [("c1", 30)], []⟩ 4 "c1" true 9).code
        = some .RESOURCE_EXHAUSTED := by
  decide

/-- C4 (amended): provided the active-client count is below the threshold,
a reconnecting connection with no session entry is rejected with
`NOT_FOUND` and `_init` returns false with the state unchanged; with an
existing session entry, `_init` only refreshes the client's last-seen
timestamp to the connection's start time — no counter increment, no second
session — and returns true. -/
theorem init_reconnecting_below_threshold (srv : ServerState)
    (max_threads : Nat) (cid : String) (t : Nat)
    (hlt : srv.num_clients < max_threads / 2) :
    (lookupKey srv.client_last_seen cid = none →
      DataServicer._init srv max_threads cid true t =
        ⟨srv, false, some .NOT_FOUND⟩) ∧
    (∀ ls, lookupKey srv.client_last_seen cid = some ls →
      DataServicer._init srv max_threads cid true t =
        ⟨{ srv with client_last_seen := insertKey srv.client_last_seen cid t },
          true, none⟩) := by
  have hnge : ¬ srv.num_clients ≥ max_threads / 2 := not_le.mpr hlt
  constructor
  · intro h
    simp [DataServicer._init, hnge, h]
  · intro ls h
    simp [DataServicer._init, hnge, h]

/-- Witness for the amended C4: one active client, threshold 2, client
"c1" reconnecting with an existing entry: admitted, last-seen refreshed to
the new start time, counter still 1. -/
theorem init_reconnecting_below_threshold_witness :
    DataServicer._init ⟨1, [("c1", 3)], [], []⟩ 4 "c1" true 9 =
      ⟨⟨1, insertKey [("c1", 3)] "c1" 9, [], []⟩, true, none⟩ :=
  (init_reconnecting_below_threshold ⟨1, [("c1", 3)], [], []⟩ 4 "c1" 9
    (by decide)).2 3 rfl

/-! ## Claim about missing client_id metadata -/

/-- C10: a connection whose metadata carries no `client_id` key makes
`Datapath` return immediately: no events (no responses emitted, no backend
calls, no teardown), no status code, and the registry state — counter,
sessions, grace periods, caches — is unchanged. -/
theorem datapath_no_client_id (b : Backend) (max_threads : Nat)
    (ro rf : Err → Bool) (srv : ServerState)
    (metadata : List (String × String)) (t : Nat) (items : List QueueItem)
    (h : lookupKey metadata "client_id" = none) :
    DataServicer.Datapath b max_threads ro rf srv metadata t items =
      ⟨srv, [], none⟩ := by
  simp [DataServicer.Datapath, h]

/-! ## Helper functions and lemmas over traces and association lists -/

/-- The event trace of a step result. -/
def stepEvents : StepResult → List Event
  | .ok _ evts => evts
  | .raised _ _ evts => evts

/-- Whether an event is a response-cache check or store. -/
def isCacheEvent : Event → Bool
  | .cacheCheck _ => true
  | .cacheStore _ => true
  | _ => false

/-- A trace neither consults (`check_cache`) nor updates (`update_cache`)
the response cache. -/
def noCacheEvents (evts : List Event) : Bool :=
  evts.all fun e => !isCacheEvent e

theorem lookupKey_insertKey_self {α : Type} (m : List (String × α))
    (k : String) (v : α) : lookupKey (insertKey m k v) k = some v := by
  induction m with
  | nil => simp [insertKey, lookupKey]
  | cons hd tl ih =>
      obtain ⟨k', v'⟩ := hd
      by_cases hk : k' = k
      · simp [insertKey, hk, lookupKey]
      · simp [insertKey, hk, lookupKey, ih]

/-- Witness for C10: metadata holding only a `reconnecting` key. -/
theorem datapath_no_client_id_witness :
    DataServicer.Datapath bEx 10 (fun _ => true) (fun _ => false)
      ⟨1, [("c1", 0)], [], []⟩ [("reconnecting", "False")] 5 [] =
      ⟨⟨1, [("c1", 0)], [], []⟩, [], none⟩ :=
  datapath_no_client_id bEx 10 (fun _ => true) (fun _ => false)
    ⟨1, [("c1", 0)], [], []⟩ [("reconnecting", "False")] 5 [] rfl

/-! ## Claim about `acknowledge` requests -/

/-- C8: an `acknowledge` request's only effect is removing the acknowledged
request id's entry from the response cache: the step returns with no
emitted response, no backend call and no lock acquisition in its trace, and
with the registry (`srv`), the `reconnect_enabled` and `cleanup_requested`
flags unchanged. -/
theorem acknowledge_only_cache_cleanup (b : Backend) (cid : String)
    (st : LoopState) (rid ack : Nat) :
    processRequest b cid st ⟨rid, .acknowledge ack⟩ =
      .ok { st with response_cache := cache_cleanup st.response_cache ack }
        [.cacheCleanup ack] := by
  simp [processRequest, _should_cache, dispatchRequest]

/-! ## Claim about `init` requests and reconnect disabling -/

theorem step_reconnect_disabled (b : Backend) (cid : String) (st : LoopState)
    (req : DataRequest) (h : st.reconnect_enabled = false) :
    noCacheEvents (stepEvents (processRequest b cid st req)) = true ∧
    (∀ st' evts, processRequest b cid st req = .ok st' evts →
      st'.reconnect_enabled = false) ∧
    (∀ e st' evts, processRequest b cid st req = .raised e st' evts →
      st'.reconnect_enabled = false) := by
  have hpr : processRequest b cid st req = dispatchRequest b cid st req := by
    simp [processRequest, h]
  rw [hpr]
  obtain ⟨rid, ty⟩ := req
  cases ty with
  | init g =>
      simp [dispatchRequest, finishResponse, _should_cache, h, noCacheEvents,
        stepEvents, isCacheEvent]
  | get asyn p =>
      cases asyn with
      | false =>
          simp [dispatchRequest, finishResponse, _should_cache, h,
            noCacheEvents, stepEvents, isCacheEvent]
      | true =>
          cases hag : b._async_get_object p with
          | none =>
              simp [dispatchRequest, hag, finishResponse, _should_cache, h,
                noCacheEvents, stepEvents, isCacheEvent]
          | some tok =>
              simp [dispatchRequest, hag, finishResponse, _should_cache, h,
                noCacheEvents, stepEvents, isCacheEvent]
  | put p =>
      simp [dispatchRequest, finishResponse, _should_cache, h, noCacheEvents,
        stepEvents, isCacheEvent]
  | release ids =>
      simp [dispatchRequest, finishResponse, _should_cache, h, noCacheEvents,
        stepEvents, isCacheEvent, List.all_append, List.all_map,
        Function.comp]
  | connection_info =>
      simp [dispatchRequest, finishResponse, _should_cache, h, noCacheEvents,
        stepEvents, isCacheEvent]
  | prep_runtime_env p =>
      simp [dispatchRequest, finishResponse, _should_cache, h, noCacheEvents,
        stepEvents, isCacheEvent]
  | connection_cleanup =>
      simp [dispatchRequest, finishResponse, _should_cache, h, noCacheEvents,
        stepEvents, isCacheEvent]
  | acknowledge ack =>
      simp [dispatchRequest, finishResponse, _should_cache, h, noCacheEvents,
        stepEvents, isCacheEvent]
  | unknownType =>
      simp [dispatchRequest, finishResponse, _should_cache, h, noCacheEvents,
        stepEvents, isCacheEvent]
      rintro e st' evts - rfl -
      exact h

theorem runLoop_reconnect_disabled (b : Backend) (cid : String)
    (items : List QueueItem) (st : LoopState)
    (h : st.reconnect_enabled = false) :
    (runLoop b cid st items).st.reconnect_enabled = false ∧
    noCacheEvents (runLoop b cid st items).events = true := by
  induction items generalizing st with
  | nil => simpa [runLoop, noCacheEvents]
  | cons item rest ih =>
      cases item with
      | response r =>
          have := ih st h
          simp [runLoop, noCacheEvents, isCacheEvent] at this ⊢
          exact this
      | request req =>
          have hstep := step_reconnect_disabled b cid st req h
          cases hpr : processRequest b cid st req with
          | ok st' evts =>
              have hre' : st'.reconnect_enabled = false :=
                hstep.2.1 st' evts hpr
              have hrest := ih st' hre'
              have hevts : noCacheEvents evts = true := by
                have := hstep.1
                rwa [hpr] at this
              simp [runLoop, hpr, noCacheEvents, List.all_append]
                at hevts hrest ⊢
              exact ⟨hrest.1, hevts, hrest.2⟩
          | raised e st' evts =>
              have hre' : st'.reconnect_enabled = false :=
                hstep.2.2 e st' evts hpr
              have hevts : noCacheEvents evts = true := by
                have := hstep.1
                rwa [hpr] at this
              simp [runLoop, hpr, noCacheEvents] at hevts ⊢
              exact ⟨hre', hevts⟩

/-- C6: dispatching an `init` request records the requested grace period in
the registry under the client id, and a grace period of exactly zero
disables reconnection for the rest of the session: `reconnect_enabled`
becomes and stays false, and no subsequent item of the session is
cache-checked or cached (no `cacheCheck`/`cacheStore` event ever again). -/
theorem init_records_grace_and_zero_disables (b : Backend) (cid : String)
    (st : LoopState) (g rid : Nat) (st₁ : LoopState) (evts : List Event)
    (h : dispatchRequest b cid st ⟨rid, .init g⟩ = .ok st₁ evts) :
    lookupKey st₁.srv.reconnect_grace_periods cid = some g ∧
    (g = 0 → st₁.reconnect_enabled = false ∧
      ∀ items : List QueueItem,
        (runLoop b cid st₁ items).st.reconnect_enabled = false ∧
        noCacheEvents (runLoop b cid st₁ items).events = true) := by
  by_cases hg : g = 0
  · subst hg
    simp [dispatchRequest, finishResponse, _should_cache] at h
    obtain ⟨h1, -⟩ := h
    subst h1
    refine ⟨by simp [lookupKey_insertKey_self], fun _ => ⟨rfl, fun items => ?_⟩⟩
    exact runLoop_reconnect_disabled b cid items _ rfl
  · by_cases hre : st.reconnect_enabled
    · simp [dispatchRequest, finishResponse, _should_cache, hg, hre] at h
      obtain ⟨h1, -⟩ := h
      subst h1
      exact ⟨by simp [lookupKey_insertKey_self], fun hg0 => absurd hg0 hg⟩
    · simp [dispatchRequest, finishResponse, _should_cache, hg,
        Bool.of_not_eq_true hre] at h
      obtain ⟨h1, -⟩ := h
      subst h1
      exact ⟨by simp [lookupKey_insertKey_self], fun hg0 => absurd hg0 hg⟩

/-- Witness for C6: client "c1" sends `init` with grace period 0; the
registry records grace period 0 for "c1". -/
theorem init_records_grace_and_zero_disables_witness :
    lookupKey
      ((⟨⟨1, [("c1", 5)], [("c1", 0)], [("c1", ⟨[], none⟩)]⟩, ⟨[], none⟩,
        false, false⟩ : LoopState)).srv.reconnect_grace_periods "c1"
      = some 0 :=
  (init_records_grace_and_zero_disables bEx "c1"
    ⟨⟨1, [("c1", 5)], [], [("c1", ⟨[], none⟩)]⟩, ⟨[], none⟩, true, false⟩ 0 1
    ⟨⟨1, [("c1", 5)], [("c1", 0)], [("c1", ⟨[], none⟩)]⟩, ⟨[], none⟩, false,
      false⟩
    [.backend .InitCall, .lockAcquire, .lockRelease, .emit ⟨1, .init 100⟩]
    (by decide)).1

/-! ## Claim about cache replay and non-cacheable bypass -/

theorem check_cache_hit_iff (c : OrderedResponseCache) (i : Nat)
    (r : DataResponse) :
    check_cache c i = .hit r ↔
      c.invalid = none ∧ lookupNat c.entries i = some r := by
  unfold check_cache
  cases c.invalid with
  | some e => simp
  | none =>
      cases h : lookupNat c.entries i with
      | some r0 => simp [h]
      | none => simp [h]

theorem check_cache_absent_iff (c : OrderedResponseCache) (i : Nat) :
    check_cache c i = .absent ↔
      c.invalid = none ∧ lookupNat c.entries i = none := by
  unfold check_cache
  cases c.invalid with
  | some e => simp
  | none =>
      cases h : lookupNat c.entries i with
      | some r0 => simp [h]
      | none => simp [h]

theorem dispatch_cacheable_stores (b : Backend) (cid : String)
    (st : LoopState) (req : DataRequest) (st₁ : LoopState)
    (evts : List Event) (r : DataResponse)
    (hA : _should_cache req = true)
    (hinv : st.response_cache.invalid = none)
    (habs : lookupNat st.response_cache.entries req.req_id = none)
    (hre : st.reconnect_enabled = true)
    (hd : dispatchRequest b cid st req = .ok st₁ evts)
    (hre₁ : st₁.reconnect_enabled = true)
    (hr : Event.emit r ∈ evts) :
    st₁.response_cache.invalid = none ∧
    lookupNat st₁.response_cache.entries req.req_id = some r := by
  obtain ⟨rid, ty⟩ := req
  simp only [DataRequest.req_id] at habs ⊢
  cases ty with
  | init g =>
      by_cases hg : g = 0
      · subst hg
        simp [dispatchRequest, finishResponse, _should_cache] at hd
        obtain ⟨h1, -⟩ := hd
        rw [← h1] at hre₁
        simp at hre₁
      · simp [dispatchRequest, finishResponse, _should_cache, hg, hre] at hd
        obtain ⟨h1, h2⟩ := hd
        subst h1
        subst h2
        simp at hr
        subst hr
        simp [update_cache, habs, hinv, lookupNat]
  | get asyn p => simp [_should_cache] at hA
  | put p =>
      simp [dispatchRequest, finishResponse, _should_cache, hre] at hd
      obtain ⟨h1, h2⟩ := hd
      subst h1
      subst h2
      simp at hr
      subst hr
      simp [update_cache, habs, hinv, lookupNat]
  | release ids =>
      simp [dispatchRequest, finishResponse, _should_cache, hre] at hd
      obtain ⟨h1, h2⟩ := hd
      subst h1
      subst h2
      simp at hr
      subst hr
      simp [update_cache, habs, hinv, lookupNat]
  | connection_info =>
      simp [dispatchRequest, finishResponse, _should_cache, hre] at hd
      obtain ⟨h1, h2⟩ := hd
      subst h1
      subst h2
      simp at hr
      subst hr
      simp [update_cache, habs, hinv, lookupNat]
  | prep_runtime_env p =>
      simp [dispatchRequest, finishResponse, _should_cache, hre] at hd
      obtain ⟨h1, h2⟩ := hd
      subst h1
      subst h2
      simp at hr
      subst hr
      simp [update_cache, habs, hinv, lookupNat]
  | connection_cleanup => simp [_should_cache] at hA
  | acknowledge ack => simp [_should_cache] at hA
  | unknownType => simp [dispatchRequest] at hd

/-- C2: while reconnection is enabled, a cacheable request (`_should_cache`
true: any kind but get/acknowledge/connection_cleanup) that was processed
and emitted a response can be delivered again and replays exactly the
stored response from the cache — one `cacheCheck`, the identical emitted
response, no backend invocation, state unchanged; a non-cacheable request
bypasses the cache entirely: `processRequest` equals the bare dispatch
switch and the step's trace holds no `cacheCheck`/`cacheStore` event, so a
repeated delivery reaches the handler again. -/
theorem cache_replay_and_bypass (b : Backend) (cid : String)
    (req : DataRequest) :
    (∀ st st₁ evts r, _should_cache req = true →
      st.reconnect_enabled = true →
      processRequest b cid st req = .ok st₁ evts →
      st₁.reconnect_enabled = true →
      Event.emit r ∈ evts →
      processRequest b cid st₁ req =
        .ok st₁ [.cacheCheck req.req_id, .emit r]) ∧
    (_should_cache req = false → ∀ st,
      processRequest b cid st req = dispatchRequest b cid st req ∧
      noCacheEvents (stepEvents (dispatchRequest b cid st req)) = true) := by
  constructor
  · intro st st₁ evts r hA hre hproc hre₁ hr
    have key : st₁.response_cache.invalid = none ∧
        lookupNat st₁.response_cache.entries req.req_id = some r := by
      simp only [processRequest, hA, hre, Bool.and_self, if_true] at hproc
      cases hcc : check_cache st.response_cache req.req_id with
      | failure e => rw [hcc] at hproc; simp at hproc
      | hit r0 =>
          rw [hcc] at hproc
          simp only [StepResult.ok.injEq] at hproc
          obtain ⟨h1, h2⟩ := hproc
          subst h1
          subst h2
          simp at hr
          subst hr
          exact (check_cache_hit_iff _ _ _).mp hcc
      | absent =>
          rw [hcc] at hproc
          obtain ⟨hinv, habs⟩ := (check_cache_absent_iff _ _).mp hcc
          cases hd : dispatchRequest b cid st req with
          | ok st' evts' =>
              rw [hd] at hproc
              simp only [StepResult.ok.injEq] at hproc
              obtain ⟨h1, h2⟩ := hproc
              subst h1
              subst h2
              simp at hr
              exact dispatch_cacheable_stores b cid st req st' evts' r hA hinv
                habs hre hd hre₁ hr
          | raised e st' evts' => rw [hd] at hproc; simp at hproc
    have hcc₁ : check_cache st₁.response_cache req.req_id = .hit r :=
      (check_cache_hit_iff _ _ _).mpr key
    simp [processRequest, hA, hre₁, hcc₁]
  · intro hB st
    refine ⟨by simp [processRequest, hB], ?_⟩
    obtain ⟨rid, ty⟩ := req
    cases ty with
    | init g => simp [_should_cache] at hB
    | get asyn p =>
        cases asyn with
        | false =>
            simp [dispatchRequest, finishResponse, _should_cache,
              noCacheEvents, stepEvents, isCacheEvent]
        | true =>
            cases hag : b._async_get_object p with
            | none =>
                simp [dispatchRequest, hag, noCacheEvents, stepEvents,
                  isCacheEvent]
            | some tok =>
                simp [dispatchRequest, hag, finishResponse, _should_cache,
                  noCacheEvents, stepEvents, isCacheEvent]
    | put p => simp [_should_cache] at hB
    | release ids => simp [_should_cache] at hB
    | connection_info => simp [_should_cache] at hB
    | prep_runtime_env p => simp [_should_cache] at hB
    | connection_cleanup =>
        simp [dispatchRequest, finishResponse, _should_cache, noCacheEvents,
          stepEvents, isCacheEvent]
    | acknowledge ack =>
        simp [dispatchRequest, noCacheEvents, stepEvents, isCacheEvent]
    | unknownType => simp [_should_cache] at hB

/-- Witness for C2: client "c1" sends `put` (req id 1) once — the response
is cached — and the second delivery of the same request id replays the
identical stored response with no backend call. -/
theorem cache_replay_and_bypass_witness :
    processRequest bEx "c1"
      ⟨⟨1, [("c1", 0)], [], []⟩, ⟨[(1, ⟨1, .put 307⟩)], none⟩, true, false⟩
      ⟨1, .put 7⟩ =
      .ok ⟨⟨1, [("c1", 0)], [], []⟩, ⟨[(1, ⟨1, .put 307⟩)], none⟩, true, false⟩
        [.cacheCheck 1, .emit ⟨1, .put 307⟩] :=
  (cache_replay_and_bypass bEx "c1" ⟨1, .put 7⟩).1
    ⟨⟨1, [("c1", 0)], [], []⟩, ⟨[], none⟩, true, false⟩
    ⟨⟨1, [("c1", 0)], [], []⟩, ⟨[(1, ⟨1, .put 307⟩)], none⟩, true, false⟩
    [.cacheCheck 1, .backend .PutObject, .cacheStore 1, .emit ⟨1, .put 307⟩]
    ⟨1, .put 307⟩ rfl rfl (by decide) rfl (by decide)

/-! ## Claim about the teardown block -/

theorem finally_no_wait (srv : ServerState) (cid : String) (t : Nat)
    (cr : Bool)
    (hor : cr = true ∨ lookupKey srv.reconnect_grace_periods cid = none)
    (d : Nat) : Event.graceWait d ∉ (Datapath_finally srv cid t cr).2 := by
  have hw : (match cr, lookupKey srv.reconnect_grace_periods cid with
      | false, some d0 => [Event.graceWait d0]
      | _, _ => ([] : List Event)) = [] := by
    rcases hor with rfl | hgp
    · rfl
    · cases cr <;> simp [hgp]
  unfold Datapath_finally
  rw [hw]
  cases hls : lookupKey srv.client_last_seen cid with
  | none => simp
  | some ls =>
      by_cases hgt : ls > t
      · simp [hgt]
      · simp only [hgt, if_false]
        by_cases hz : srv.num_clients - 1 = 0 <;> simp [hz]

theorem finally_waits_grace (srv : ServerState) (cid : String) (t : Nat)
    (d : Nat) (hgp : lookupKey srv.reconnect_grace_periods cid = some d) :
    (Datapath_finally srv cid t false).2.head? = some (.graceWait d) := by
  unfold Datapath_finally
  rw [hgp]
  cases hls : lookupKey srv.client_last_seen cid with
  | none => simp
  | some ls =>
      by_cases hgt : ls > t
      · simp [hgt]
      · simp [hgt]

theorem finally_session_gone (srv : ServerState) (cid : String) (t : Nat)
    (cr : Bool) (hls : lookupKey srv.client_last_seen cid = none) :
    (Datapath_finally srv cid t cr).1 = srv ∧
    Event.backend .ReleaseAll ∉ (Datapath_finally srv cid t cr).2 := by
  unfold Datapath_finally
  rw [hls]
  refine ⟨rfl, ?_⟩
  cases cr <;> cases hgp : lookupKey srv.reconnect_grace_periods cid <;>
    simp [hgp]

theorem finally_reconnected_skips (srv : ServerState) (cid : String)
    (t : Nat) (cr : Bool) (ls : Nat)
    (hls : lookupKey srv.client_last_seen cid = some ls) (hgt : ls > t) :
    (Datapath_finally srv cid t cr).1 = srv ∧
    Event.backend .ReleaseAll ∉ (Datapath_finally srv cid t cr).2 := by
  unfold Datapath_finally
  rw [hls]
  simp only [hgt, if_true]
  refine ⟨by trivial, ?_⟩
  cases cr <;> cases hgp : lookupKey srv.reconnect_grace_periods cid <;>
    simp [hgp]

theorem finally_cleans_up (srv : ServerState) (cid : String) (t : Nat)
    (cr : Bool) (ls : Nat)
    (hls : lookupKey srv.client_last_seen cid = some ls) (hgt : ¬ ls > t) :
    Event.backend .ReleaseAll ∈ (Datapath_finally srv cid t cr).2 ∧
    (Datapath_finally srv cid t cr).1 =
      ⟨srv.num_clients - 1, eraseKey srv.client_last_seen cid,
        eraseKey srv.reconnect_grace_periods cid,
        eraseKey srv.response_caches cid⟩ := by
  unfold Datapath_finally
  rw [hls]
  simp only [hgt, if_false]
  exact ⟨by simp, by trivial⟩

/-- C1: on teardown, if cleanup was requested or no grace period is on
record for the client id, no grace wait happens (immediate cleanup);
otherwise the trace starts with a wait of the recorded grace period (the
wait is interruptible by the global shutdown signal).  Then, under the
registry lock: if the client id is gone from `client_last_seen`, nothing
happens; if the recorded last-seen is strictly later than this connection's
start time, cleanup is skipped; otherwise `release_all` runs and the
last-seen, grace-period and response-cache entries are deleted and the
active-client counter is decremented. -/
theorem datapath_finally_spec (srv : ServerState) (cid : String) (t : Nat)
    (cr : Bool) :
    ((cr = true ∨ lookupKey srv.reconnect_grace_periods cid = none) →
      ∀ d, Event.graceWait d ∉ (Datapath_finally srv cid t cr).2) ∧
    (∀ d, cr = false → lookupKey srv.reconnect_grace_periods cid = some d →
      (Datapath_finally srv cid t cr).2.head? = some (.graceWait d)) ∧
    (lookupKey srv.client_last_seen cid = none →
      (Datapath_finally srv cid t cr).1 = srv ∧
      Event.backend .ReleaseAll ∉ (Datapath_finally srv cid t cr).2) ∧
    (∀ ls, lookupKey srv.client_last_seen cid = some ls → ls > t →
      (Datapath_finally srv cid t cr).1 = srv ∧
      Event.backend .ReleaseAll ∉ (Datapath_finally srv cid t cr).2) ∧
    (∀ ls, lookupKey srv.client_last_seen cid = some ls → ¬ ls > t →
      Event.backend .ReleaseAll ∈ (Datapath_finally srv cid t cr).2 ∧
      (Datapath_finally srv cid t cr).1 =
        ⟨srv.num_clients - 1, eraseKey srv.client_last_seen cid,
          eraseKey srv.reconnect_grace_periods cid,
          eraseKey srv.response_caches cid⟩) := by
  refine ⟨fun hor d => finally_no_wait srv cid t cr hor d,
    fun d hcr hgp => ?_,
    fun hls => finally_session_gone srv cid t cr hls,
    fun ls hls hgt => finally_reconnected_skips srv cid t cr ls hls hgt,
    fun ls hls hgt => finally_cleans_up srv cid t cr ls hls hgt⟩
  subst hcr
  exact finally_waits_grace srv cid t d hgp

/-- Witness for C1: client "c1" disconnected ungracefully (no cleanup
request) with grace period 4 on record and no reconnect: the teardown trace
waits, then releases everything. -/
theorem datapath_finally_spec_witness :
    (Datapath_finally ⟨2, [("c1", 3)], [("c1", 4)], [("c1", ⟨[], none⟩)]⟩
        "c1" 5 false).2.head? = some (.graceWait 4) ∧
    Event.backend .ReleaseAll ∈
      (Datapath_finally ⟨2, [("c1", 3)], [("c1", 4)], [("c1", ⟨[], none⟩)]⟩
        "c1" 5 false).2 :=
  ⟨(datapath_finally_spec ⟨2, [("c1", 3)], [("c1", 4)], [("c1", ⟨[], none⟩)]⟩
      "c1" 5 false).2.1 4 rfl (by decide),
   ((datapath_finally_spec ⟨2, [("c1", 3)], [("c1", 4)], [("c1", ⟨[], none⟩)]⟩
      "c1" 5 false).2.2.2.2 3 (by decide) (by decide)).1⟩

/-! ## Claim about unrecognized kinds and fault handling -/

/-- C7: the dispatch switch raises the fatal "Unreachable code" fault on an
unrecognized request kind; the channel-error handler always invalidates the
response cache with the fault, and whenever the fault is unrecoverable or
the cache refuses to record it, it sets `FAILED_PRECONDITION` and forces
`cleanup_requested`, and a forced cleanup has no grace-period wait in its
teardown trace. -/
theorem unknown_kind_and_fault_handling :
    (∀ (b : Backend) (cid : String) (st : LoopState) (rid : Nat),
      dispatchRequest b cid st ⟨rid, .unknownType⟩ =
        .raised .unreachableType st []) ∧
    (∀ (recoverable refuses : Bool) (st : LoopState) (e : Err),
      recoverable = false ∨ refuses = true →
      handleChannelError recoverable refuses st e =
        ({ st with
            response_cache := cache_invalidate st.response_cache e,
            cleanup_requested := true }, some .FAILED_PRECONDITION)) ∧
    (∀ (recoverable refuses : Bool) (st : LoopState) (e : Err),
      (handleChannelError recoverable refuses st e).1.response_cache =
        cache_invalidate st.response_cache e) ∧
    (∀ (srv : ServerState) (cid : String) (t d : Nat),
      Event.graceWait d ∉ (Datapath_finally srv cid t true).2) := by
  refine ⟨fun b cid st rid => rfl, ?_, ?_, ?_⟩
  · rintro recoverable refuses st e (rfl | rfl)
    · simp [handleChannelError]
    · simp [handleChannelError]
  · intro recoverable refuses st e
    by_cases h : (!recoverable || refuses) = true <;>
      simp [handleChannelError, h]
  · intro srv cid t d
    exact finally_no_wait srv cid t true (Or.inl rfl) d

/-- Witness for C7: an unrecoverable fault (`recoverable = false`) makes
the handler record the fault in the cache, set `FAILED_PRECONDITION` and
force cleanup. -/
theorem unknown_kind_and_fault_handling_witness :
    handleChannelError false false
      ⟨⟨1, [("c1", 0)], [], []⟩, ⟨[], none⟩, true, false⟩ .unreachableType =
      (⟨⟨1, [("c1", 0)], [], []⟩, ⟨[], some .unreachableType⟩, true, true⟩,
        some .FAILED_PRECONDITION) :=
  unknown_kind_and_fault_handling.2.1 false false
    ⟨⟨1, [("c1", 0)], [], []⟩, ⟨[], none⟩, true, false⟩ .unreachableType
    (Or.inl rfl)

/-! ## Claim about the ray.shutdown discipline -/

/-- Lock-depth scanner: walks a trace keeping the `clients_lock` depth,
failing (`none`) when a `rayShutdown` occurs at depth zero (outside the
lock). -/
def scanLock : Nat → List Event → Option Nat
  | d, [] => some d
  | d, .lockAcquire :: rest => scanLock (d + 1) rest
  | d, .lockRelease :: rest => scanLock (d - 1) rest
  | d, .rayShutdown :: rest => if d = 0 then none else scanLock d rest
  | d, _ :: rest => scanLock d rest

/-- Every `rayShutdown` of the trace happens while the lock is held. -/
def shutdownLockedOk (evts : List Event) : Bool := (scanLock 0 evts).isSome

/-- Whether an event is a `rayShutdown`. -/
def isShutdownEvent : Event → Bool
  | .rayShutdown => true
  | _ => false

/-- A trace without any `rayShutdown`. -/
def noShutdownEvents (evts : List Event) : Bool :=
  evts.all fun e => !isShutdownEvent e

/-- Whether an event is inspected by `scanLock` (lock or shutdown). -/
def isLockEvent : Event → Bool
  | .lockAcquire => true
  | .lockRelease => true
  | .rayShutdown => true
  | _ => false

theorem scanLock_append (xs ys : List Event) (d : Nat) :
    scanLock d (xs ++ ys) =
      match scanLock d xs with
      | some d' => scanLock d' ys
      | none => none := by
  induction xs generalizing d with
  | nil => simp [scanLock]
  | cons x rest ih =>
      cases x with
      | rayShutdown =>
          by_cases hd : d = 0 <;> simp [scanLock, hd, ih]
      | lockAcquire => simp [scanLock, ih]
      | lockRelease => simp [scanLock, ih]
      | backend c => simp [scanLock, ih]
      | emit r => simp [scanLock, ih]
      | cacheCheck i => simp [scanLock, ih]
      | cacheStore i => simp [scanLock, ih]
      | cacheCleanup i => simp [scanLock, ih]
      | graceWait w => simp [scanLock, ih]

theorem scanLock_neutral (l : List Event) (d : Nat)
    (h : ∀ e ∈ l, isLockEvent e = false) : scanLock d l = some d := by
  induction l with
  | nil => rfl
  | cons x rest ih =>
      cases x <;> simp_all [scanLock, isLockEvent]

theorem noShutdownEvents_not_mem (l : List Event)
    (h : noShutdownEvents l = true) : Event.rayShutdown ∉ l := by
  intro hm
  have := List.all_eq_true.mp h _ hm
  simp [isShutdownEvent] at this

theorem finish_lock_balanced (st : LoopState) (req : DataRequest)
    (resp : DataResponse) (evts : List Event) (d : Nat)
    (hscan : scanLock d evts = some d)
    (hns : noShutdownEvents evts = true) :
    scanLock d (stepEvents (finishResponse st req resp evts)) = some d ∧
    noShutdownEvents (stepEvents (finishResponse st req resp evts)) = true := by
  unfold finishResponse
  by_cases hc : (_should_cache req && st.reconnect_enabled) = true
  · rw [if_pos hc]
    simp only [stepEvents]
    constructor
    · rw [scanLock_append, hscan]
      simp [scanLock]
    · simp only [noShutdownEvents, List.all_append, Bool.and_eq_true]
      exact ⟨hns, by simp [isShutdownEvent]⟩
  · rw [if_neg hc]
    simp only [stepEvents]
    constructor
    · rw [scanLock_append, hscan]
      simp [scanLock]
    · simp only [noShutdownEvents, List.all_append, Bool.and_eq_true]
      exact ⟨hns, by simp [isShutdownEvent]⟩

theorem dispatch_lock_balanced (b : Backend) (cid : String) (st : LoopState)
    (req : DataRequest) (d : Nat) :
    scanLock d (stepEvents (dispatchRequest b cid st req)) = some d ∧
    noShutdownEvents (stepEvents (dispatchRequest b cid st req)) = true := by
  obtain ⟨rid, ty⟩ := req
  cases ty with
  | init g =>
      have h := finish_lock_balanced
        { st with
          srv := { st.srv with
            reconnect_grace_periods :=
              insertKey st.srv.reconnect_grace_periods cid g },
          reconnect_enabled := if g = 0 then false else st.reconnect_enabled }
        ⟨rid, .init g⟩ ⟨rid, .init (b.InitResp g)⟩
        [.backend .InitCall, .lockAcquire, .lockRelease] d
        (by simp [scanLock]) (by simp [noShutdownEvents, isShutdownEvent])
      simpa [dispatchRequest] using h
  | get asyn p =>
      cases asyn with
      | false =>
          have h := finish_lock_balanced st ⟨rid, .get false p⟩
            ⟨rid, .get (b._get_object p)⟩ [.backend .GetObject] d
            (by simp [scanLock]) (by simp [noShutdownEvents, isShutdownEvent])
          simpa [dispatchRequest] using h
      | true =>
          cases hag : b._async_get_object p with
          | none =>
              simp [dispatchRequest, hag, stepEvents, scanLock,
                noShutdownEvents, isShutdownEvent]
          | some tok =>
              have h := finish_lock_balanced st ⟨rid, .get true p⟩
                ⟨rid, .get tok⟩ [.backend .AsyncGetObject] d
                (by simp [scanLock])
                (by simp [noShutdownEvents, isShutdownEvent])
              simpa [dispatchRequest, hag] using h
  | put p =>
      have h := finish_lock_balanced st ⟨rid, .put p⟩
        ⟨rid, .put (b._put_object p)⟩ [.backend .PutObject] d
        (by simp [scanLock]) (by simp [noShutdownEvents, isShutdownEvent])
      simpa [dispatchRequest] using h
  | release ids =>
      have h := finish_lock_balanced st ⟨rid, .release ids⟩
        ⟨rid, .release (ids.map b.releaseOne)⟩
        (ids.map fun _ => Event.backend .Release) d
        (by
          apply scanLock_neutral
          intro e he
          rcases List.mem_map.mp he with ⟨j, -, hj⟩
          simp [← hj, isLockEvent])
        (by
          simp only [noShutdownEvents]
          apply List.all_eq_true.mpr
          intro i hi
          rcases List.mem_map.mp hi with ⟨j, -, hj⟩
          simp [← hj, isShutdownEvent])
      simpa [dispatchRequest] using h
  | connection_info =>
      have h := finish_lock_balanced st ⟨rid, .connection_info⟩
        ⟨rid, .connection_info st.srv.num_clients⟩
        [.lockAcquire, .lockRelease] d
        (by simp [scanLock]) (by simp [noShutdownEvents, isShutdownEvent])
      simpa [dispatchRequest] using h
  | prep_runtime_env p =>
      have h := finish_lock_balanced st ⟨rid, .prep_runtime_env p⟩
        ⟨rid, .prep_runtime_env (b.PrepRuntimeEnvResp p)⟩
        [.lockAcquire, .backend .PrepRuntimeEnv, .lockRelease] d
        (by simp [scanLock]) (by simp [noShutdownEvents, isShutdownEvent])
      simpa [dispatchRequest] using h
  | connection_cleanup =>
      have h := finish_lock_balanced { st with cleanup_requested := true }
        ⟨rid, .connection_cleanup⟩ ⟨rid, .connection_cleanup⟩ [] d
        rfl rfl
      simpa [dispatchRequest] using h
  | acknowledge ack =>
      simp [dispatchRequest, stepEvents, scanLock, noShutdownEvents,
        isShutdownEvent]
  | unknownType =>
      simp [dispatchRequest, stepEvents, scanLock, noShutdownEvents]

theorem step_lock_balanced (b : Backend) (cid : String) (st : LoopState)
    (req : DataRequest) (d : Nat) :
    scanLock d (stepEvents (processRequest b cid st req)) = some d ∧
    noShutdownEvents (stepEvents (processRequest b cid st req)) = true := by
  rw [processRequest]
  by_cases hc : (_should_cache req && st.reconnect_enabled) = true
  · rw [if_pos hc]
    cases hcc : check_cache st.response_cache req.req_id with
    | failure e =>
        simp [stepEvents, scanLock, noShutdownEvents, isShutdownEvent]
    | hit r =>
        simp [stepEvents, scanLock, noShutdownEvents, isShutdownEvent]
    | absent =>
        have hd := dispatch_lock_balanced b cid st req d
        cases hdr : dispatchRequest b cid st req with
        | ok st' evts =>
            rw [hdr] at hd
            simp only [stepEvents] at hd ⊢
            constructor
            · simp only [scanLock]
              exact hd.1
            · simp only [noShutdownEvents, List.all_cons, Bool.and_eq_true]
              exact ⟨by simp [isShutdownEvent], hd.2⟩
        | raised e st' evts =>
            rw [hdr] at hd
            simp only [stepEvents] at hd ⊢
            constructor
            · simp only [scanLock]
              exact hd.1
            · simp only [noShutdownEvents, List.all_cons, Bool.and_eq_true]
              exact ⟨by simp [isShutdownEvent], hd.2⟩
  · rw [if_neg hc]
    exact dispatch_lock_balanced b cid st req d

theorem runLoop_lock_balanced (b : Backend) (cid : String)
    (items : List QueueItem) (st : LoopState) (d : Nat) :
    scanLock d (runLoop b cid st items).events = some d ∧
    noShutdownEvents (runLoop b cid st items).events = true := by
  induction items generalizing st with
  | nil => simp [runLoop, scanLock, noShutdownEvents]
  | cons item rest ih =>
      cases item with
      | response r =>
          have h := ih st
          simp only [runLoop]
          constructor
          · simp only [scanLock]
            exact h.1
          · simp only [noShutdownEvents, List.all_cons, Bool.and_eq_true]
            exact ⟨by simp [isShutdownEvent], h.2⟩
      | request req =>
          have hstep := step_lock_balanced b cid st req d
          cases hpr : processRequest b cid st req with
          | ok st' evts =>
              rw [hpr] at hstep
              simp only [stepEvents] at hstep
              have h := ih st'
              simp only [runLoop, hpr]
              constructor
              · rw [scanLock_append, hstep.1]
                exact h.1
              · simp only [noShutdownEvents, List.all_append,
                  Bool.and_eq_true]
                exact ⟨hstep.2, h.2⟩
          | raised e st' evts =>
              rw [hpr] at hstep
              simp only [stepEvents] at hstep
              simp only [runLoop, hpr]
              exact hstep

theorem finally_lock_balanced (srv : ServerState) (cid : String) (t : Nat)
    (cr : Bool) (d : Nat) :
    scanLock d (Datapath_finally srv cid t cr).2 = some d := by
  cases hls : lookupKey srv.client_last_seen cid with
  | none =>
      cases cr <;>
        cases hgp : lookupKey srv.reconnect_grace_periods cid <;>
        simp [Datapath_finally, hls, hgp, scanLock]
  | some ls =>
      by_cases hgt : ls > t
      · cases cr <;>
          cases hgp : lookupKey srv.reconnect_grace_periods cid <;>
          simp [Datapath_finally, hls, hgp, hgt, scanLock]
      · by_cases hz : srv.num_clients - 1 = 0 <;>
          (cases cr <;>
            cases hgp : lookupKey srv.reconnect_grace_periods cid <;>
            simp [Datapath_finally, hls, hgp, hgt, hz, scanLock])

theorem finally_shutdown_at_zero (srv : ServerState) (cid : String) (t : Nat)
    (cr : Bool) (h : Event.rayShutdown ∈ (Datapath_finally srv cid t cr).2) :
    (Datapath_finally srv cid t cr).1.num_clients = 0 := by
  cases hls : lookupKey srv.client_last_seen cid with
  | none =>
      cases cr <;>
        cases hgp : lookupKey srv.reconnect_grace_periods cid <;>
        simp [Datapath_finally, hls, hgp] at h
  | some ls =>
      by_cases hgt : ls > t
      · cases cr <;>
          cases hgp : lookupKey srv.reconnect_grace_periods cid <;>
          simp [Datapath_finally, hls, hgp, hgt] at h
      · by_cases hz : srv.num_clients - 1 = 0
        · cases cr <;>
            cases hgp : lookupKey srv.reconnect_grace_periods cid <;>
            simp [Datapath_finally, hls, hgp, hgt, hz]
        · cases cr <;>
            cases hgp : lookupKey srv.reconnect_grace_periods cid <;>
            simp [Datapath_finally, hls, hgp, hgt, hz] at h

theorem events_concat_ok (levts : List Event) (srv2 : ServerState)
    (cid : String) (t : Nat) (cr : Bool)
    (hb : ∀ d, scanLock d levts = some d)
    (hns : noShutdownEvents levts = true) :
    shutdownLockedOk (levts ++ (Datapath_finally srv2 cid t cr).2) = true ∧
    (Event.rayShutdown ∈ levts ++ (Datapath_finally srv2 cid t cr).2 →
      (Datapath_finally srv2 cid t cr).1.num_clients = 0) := by
  constructor
  · unfold shutdownLockedOk
    rw [scanLock_append, hb 0]
    simp [finally_lock_balanced]
  · intro hm
    rcases List.mem_append.mp hm with hm | hm
    · exact absurd hm (noShutdownEvents_not_mem _ hns)
    · exact finally_shutdown_at_zero srv2 cid t cr hm

theorem stream_shutdown_ok (b : Backend) (ro rf : Err → Bool) (cid : String)
    (t : Nat) (srv1 : ServerState) (cache0 : OrderedResponseCache)
    (items : List QueueItem) (code0 : Option StatusCode) :
    shutdownLockedOk
      (Datapath_stream b ro rf cid t srv1 cache0 items code0).events = true ∧
    (Event.rayShutdown ∈
        (Datapath_stream b ro rf cid t srv1 cache0 items code0).events →
      (Datapath_stream b ro rf cid t srv1 cache0 items
        code0).srv.num_clients = 0) := by
  have hb := fun d =>
    (runLoop_lock_balanced b cid items ⟨srv1, cache0, true, false⟩ d).1
  have hns :=
    (runLoop_lock_balanced b cid items ⟨srv1, cache0, true, false⟩ 0).2
  unfold Datapath_stream
  dsimp only
  cases hr : (runLoop b cid ⟨srv1, cache0, true, false⟩ items).raised with
  | none =>
      dsimp only
      exact events_concat_ok _ _ cid t _ hb hns
  | some e =>
      dsimp only
      exact events_concat_ok _ _ cid t _ hb hns

/-- C5: in every execution of the whole connection handler, `ray.shutdown`
happens only while `clients_lock` is held (the trace passes the lock-depth
scan), and only when the active-client counter has just reached zero: a
`rayShutdown` event in the trace forces the final counter to be zero (the
shutdown is the last counter-relevant action, fired exactly when the
decrement reached zero). -/
theorem shutdown_only_under_lock_at_zero (b : Backend) (mt : Nat)
    (ro rf : Err → Bool) (srv : ServerState)
    (md : List (String × String)) (t : Nat) (items : List QueueItem) :
    shutdownLockedOk (Datapath b mt ro rf srv md t items).events = true ∧
    (Event.rayShutdown ∈ (Datapath b mt ro rf srv md t items).events →
      (Datapath b mt ro rf srv md t items).srv.num_clients = 0) := by
  unfold Datapath
  cases hcid : lookupKey md "client_id" with
  | none => simp [shutdownLockedOk, scanLock]
  | some cid =>
      dsimp only
      by_cases hacc : (DataServicer._init srv mt cid
          (_get_reconnecting_from_context md) t).accepted = true
      · rw [if_pos hacc]
        exact stream_shutdown_ok b ro rf cid t _ _ items _
      · rw [if_neg hacc]
        simp [shutdownLockedOk, scanLock]

/-- Witness for C5: the last client "c1" requests `connection_cleanup`; the
teardown decrements the counter to zero and the `rayShutdown` in the trace
comes with a final counter of zero. -/
theorem shutdown_only_under_lock_at_zero_witness :
    (DataServicer.Datapath bEx 10 (fun _ => true) (fun _ => false)
      ⟨1, [("c1", 0)], [], []⟩ [("client_id", "c1")] 5
      [.request ⟨1, .connection_cleanup⟩]).srv.num_clients = 0 :=
  (shutdown_only_under_lock_at_zero bEx 10 (fun _ => true) (fun _ => false)
    ⟨1, [("c1", 0)], [], []⟩ [("client_id", "c1")] 5
    [.request ⟨1, .connection_cleanup⟩]).2 (by decide)
